import Mathlib

/-!
Verification of the study-guide generator's core logic (`src/app.py`): the
option-to-prompt compiler, the input gates, the generation step's effect on the
session store, and the exporter payloads. Each Python fragment is embedded as a
pure Lean function; Streamlit session state becomes an explicit `AppState`, the
remote chat-completion call becomes an explicit function argument, and wall-clock
reads (`datetime.now()`) become explicit `Timestamp` arguments.
-/

namespace StudyGuide

/-- Detail levels offered by the `st.select_slider` widget (app.py lines 83-87).
The widget restricts the value to these four, which is what lets the Python
dict lookup `detail_mapping[detail_level]` never raise. -/
inductive DetailLevel
  | brief
  | moderate
  | detailed
  | veryDetailed
deriving DecidableEq, Repr

/-- The `detail_mapping` dict (app.py lines 191-196). -/
def detailMapping : DetailLevel → String
  | .brief => "concise and to-the-point"
  | .moderate => "balanced with good coverage"
  | .detailed => "comprehensive and thorough"
  | .veryDetailed => "extremely detailed with in-depth explanations"

/-- The user-chosen configuration feeding one generation request: guide type
string from the selectbox (app.py lines 72-80; kept as a `String` because the
branch on it has a catch-all `else`), detail level, question count
(slider, 3..20), and the three question-type checkboxes (app.py lines 100-102). -/
structure OptionSet where
  guideType : String
  detailLevel : DetailLevel
  numQuestions : Nat
  includeMCQ : Bool
  includeShort : Bool
  includeEssay : Bool
deriving DecidableEq, Repr

/-- The `question_types` list (app.py lines 199-205): enabled labels in the
fixed order MCQ, short answer, essay. -/
def questionTypes (o : OptionSet) : List String :=
  (if o.includeMCQ then ["multiple choice questions"] else []) ++
  (if o.includeShort then ["short answer questions"] else []) ++
  (if o.includeEssay then ["essay questions"] else [])

/-- `question_type_str` (app.py line 207):
`", ".join(question_types) if question_types else "practice questions"`. -/
def questionTypeStr (o : OptionSet) : String :=
  if (questionTypes o).isEmpty then "practice questions"
  else String.intercalate ", " (questionTypes o)

/-- Comprehensive template (app.py lines 211-235). The three per-type slots
interpolate the bullet text when the type is enabled and the empty string when
it is disabled; the template's own newlines around the slots are kept, exactly
as the Python f-string keeps them. -/
def comprehensiveTemplate (material : String) (o : OptionSet) : String :=
  let dp := detailMapping o.detailLevel
  let dpCap := dp.capitalize
  let n := o.numQuestions
  let qts := questionTypeStr o
  let lineM := if o.includeMCQ then "   - Multiple choice questions (with 4 options and correct answer)" else ""
  let lineS := if o.includeShort then "   - Short answer questions" else ""
  let lineE := if o.includeEssay then "   - Essay questions with key points to cover" else ""
  s!"Create a {dp} study guide from the following material.

STUDY MATERIAL:
{material}

Generate a comprehensive study guide with these sections:

1. **OVERVIEW** - Brief summary of the main topic and its importance

2. **KEY CONCEPTS** - Main ideas explained clearly with examples where relevant

3. **IMPORTANT DEFINITIONS** - Essential terms with clear, concise definitions

4. **DETAILED NOTES** - {dpCap} explanation of the content, organized by subtopics

5. **PRACTICE QUESTIONS** - Create {n} {qts}:
{lineM}
{lineS}
{lineE}

6. **STUDY TIPS** - Memory aids, mnemonics, and connections to help remember the material

7. **SUMMARY** - Quick review of the most critical points

Format everything in clear markdown with proper headers, bullet points, and emphasis where needed."

/-- Summary Only template (app.py lines 238-249). -/
def summaryTemplate (material : String) (o : OptionSet) : String :=
  let dp := detailMapping o.detailLevel
  s!"Create a {dp} summary of the following study material.

STUDY MATERIAL:
{material}

Provide:
1. Main topic overview
2. Key points and concepts (organized logically)
3. Important takeaways
4. Quick review summary

Be {dp} and use clear markdown formatting."

/-- Definitions Focus template (app.py lines 252-263). -/
def definitionsTemplate (material : String) (o : OptionSet) : String :=
  let dp := detailMapping o.detailLevel
  s!"Extract and explain all important terms and concepts from the following material.

STUDY MATERIAL:
{material}

Create a comprehensive definitions guide with:
1. **TERM**: Clear, {dp} definition
2. Context of how it\x27s used
3. Examples where helpful
4. Related terms

Organize alphabetically and use clear markdown formatting."

/-- Practice Questions Focus template (app.py lines 266-277), the `else` branch
of the guide-type chain. Same slot behaviour as the Comprehensive template. -/
def questionsTemplate (material : String) (o : OptionSet) : String :=
  let n := o.numQuestions
  let qts := questionTypeStr o
  let lineM := if o.includeMCQ then "- Multiple choice questions with 4 options, correct answer, and brief explanation" else ""
  let lineS := if o.includeShort then "- Short answer questions with sample answers" else ""
  let lineE := if o.includeEssay then "- Essay questions with key points that should be covered" else ""
  s!"Create {n} practice questions from the following study material.

STUDY MATERIAL:
{material}

Generate {qts}:
{lineM}
{lineS}
{lineE}

Include a variety of difficulty levels and ensure questions cover all major concepts.
Format with clear markdown and proper numbering."

/-- The prompt compiler: the `if guide_type == ... / elif / elif / else` chain
of app.py lines 210-277, mapping (material, options) to the instruction string. -/
def prompt (material : String) (o : OptionSet) : String :=
  if o.guideType = "Comprehensive (All sections)" then comprehensiveTemplate material o
  else if o.guideType = "Summary Only" then summaryTemplate material o
  else if o.guideType = "Definitions Focus" then definitionsTemplate material o
  else questionsTemplate material o

/-- Does `pat` match at the head of `s`? (Plain leading-segment test over
character lists; helper for the substring scan.) -/
def leadEq {α : Type} [BEq α] : List α → List α → Bool
  | [], _ => true
  | _ :: _, [] => false
  | p :: ps, c :: cs => p == c && leadEq ps cs

/-- Does `pat` occur as a contiguous run inside `s`? Naive scan, executable by
the kernel on the concrete prompt strings. -/
def hasSub {α : Type} [BEq α] (pat : List α) : List α → Bool
  | [] => pat.isEmpty
  | c :: cs => leadEq pat (c :: cs) || hasSub pat cs

/-- Split a character list at newline characters, Python-`split('\n')` style:
`n+1` pieces for `n` newlines, empty pieces kept. -/
def splitNl (acc : List Char) : List Char → List (List Char)
  | [] => [acc.reverse]
  | c :: cs => if c == '\n' then acc.reverse :: splitNl [] cs else splitNl (c :: acc) cs

/-- The lines of a string, as character lists. -/
def linesOf (s : String) : List (List Char) := splitNl [] s.data

/-- Distinguishing marker of the Comprehensive template: its study-tips section
header, which none of the other three templates contains. -/
def markerComprehensive : String := "6. **STUDY TIPS**"

/-- Distinguishing marker of the Summary Only template. -/
def markerSummary : String := "3. Important takeaways"

/-- Distinguishing marker of the Definitions Focus template. -/
def markerDefinitions : String := "comprehensive definitions guide"

/-- Distinguishing marker of the Practice Questions Focus template. -/
def markerQuestions : String := "variety of difficulty levels"

/-- How many of the four families' distinguishing markers occur in a compiled
prompt. Template exclusivity says this is exactly 1. -/
def familyCount (s : String) : Nat :=
  (if hasSub markerComprehensive.data s.data then 1 else 0) +
  (if hasSub markerSummary.data s.data then 1 else 0) +
  (if hasSub markerDefinitions.data s.data then 1 else 0) +
  (if hasSub markerQuestions.data s.data then 1 else 0)

/-- Python `str.split()` with no separator (app.py line 161), as a recursion on
the character list: runs of whitespace separate tokens, leading/trailing
whitespace produces no empty tokens. `acc` holds the reversed current token. -/
def pySplit (acc : List Char) : List Char → List (List Char)
  | [] => if acc.isEmpty then [] else [acc.reverse]
  | c :: cs =>
    if c.isWhitespace then
      if acc.isEmpty then pySplit [] cs else acc.reverse :: pySplit [] cs
    else pySplit (c :: acc) cs

/-- `word_count = len(study_material.split())` (app.py line 161). -/
def wordCount (s : String) : Nat := (pySplit [] s.data).length

/-- Spec-side count of whitespace-delimited tokens: the number of maximal runs
of non-whitespace characters. `inWord` records whether the previous character
was inside a token. Written from the spec's words, to be compared with
`wordCount` from the code. -/
def tokenCount (inWord : Bool) : List Char → Nat
  | [] => 0
  | c :: cs =>
    if c.isWhitespace then tokenCount false cs
    else (if inWord then 0 else 1) + tokenCount true cs

/-- The advisory sufficiency classification (app.py lines 164-169):
`< 100` words warns (TooShort), `< 200` informs (Short), otherwise Sufficient. -/
inductive Sufficiency
  | tooShort
  | short
  | sufficient
deriving DecidableEq, Repr

/-- Classification of a word count by the thresholds of app.py lines 164-169. -/
def classify (wc : Nat) : Sufficiency :=
  if wc < 100 then .tooShort else if wc < 200 then .short else .sufficient

/-- The error taxonomy of the generation block (app.py lines 179-304):
the two pre-call gates and the single undifferentiated remote failure. -/
inductive GenError
  | missingCredential
  | insufficientInput
  | generationError (msg : String)
deriving DecidableEq, Repr

/-- Session state relevant to generation: `st.session_state.api_key` (None
until a non-empty key is entered, app.py lines 37-38 and 55-56) and the
single-slot result store `st.session_state.study_guide` (app.py lines 35-36). -/
structure AppState where
  apiKey : Option String
  studyGuide : Option String
deriving DecidableEq, Repr

/-- Python `str.strip()` with no argument: drop whitespace from both ends. -/
def pyStrip (s : String) : String :=
  ⟨((s.data.dropWhile Char.isWhitespace).reverse.dropWhile Char.isWhitespace).reverse⟩

/-- The pre-call gates in order (app.py lines 180-183): first the credential
check `if not st.session_state.api_key`, then the input check
`elif not study_material or len(study_material.strip()) < 50`. Returns the
error shown, or `none` when generation proceeds. -/
def preflight (apiKey : Option String) (material : String) : Option GenError :=
  if apiKey.isNone then some .missingCredential
  else if material.isEmpty || (pyStrip material).length < 50 then some .insufficientInput
  else none

/-- One generation attempt (app.py lines 179-304), parametrised by the prompt
compiler `compileFn` and by the remote call `net`, which maps the compiled
prompt to either a failure message (anything the `except` block catches) or the
list of completion choices' texts. On success the store receives
`choices[0].message.content`; an empty choice list raises IndexError inside the
`try`, which the same `except` turns into a generation error. Returns the new
state and the error surfaced, if any. -/
def generateStepWith (compileFn : String → OptionSet → String) (st : AppState)
    (material : String) (o : OptionSet)
    (net : String → Except String (List String)) : AppState × Option GenError :=
  match preflight st.apiKey material with
  | some e => (st, some e)
  | none =>
    match net (compileFn material o) with
    | .error e => (st, some (.generationError e))
    | .ok choices =>
      match choices.head? with
      | none => (st, some (.generationError "list index out of range"))
      | some text => ({ st with studyGuide := some text }, none)

/-- The generation attempt with the real prompt compiler. -/
def generateStep (st : AppState) (material : String) (o : OptionSet)
    (net : String → Except String (List String)) : AppState × Option GenError :=
  generateStepWith prompt st material o net

/-- A wall-clock reading, the explicit counterpart of `datetime.now()`. -/
structure Timestamp where
  year : Nat
  month : Nat
  day : Nat
  hour : Nat
  minute : Nat
  second : Nat
deriving DecidableEq, Repr

/-- Zero-padded two-digit decimal field, as `strftime` renders it. -/
def pad2 (n : Nat) : String := if n < 10 then "0" ++ toString n else toString n

/-- Zero-padded four-digit decimal field, as `strftime("%Y")` renders a year. -/
def pad4 (n : Nat) : String :=
  if n < 10 then "000" ++ toString n
  else if n < 100 then "00" ++ toString n
  else if n < 1000 then "0" ++ toString n
  else toString n

/-- `strftime("%Y%m%d_%H%M%S")` (app.py lines 325 and 334). -/
def fmtTs (t : Timestamp) : String :=
  pad4 t.year ++ pad2 t.month ++ pad2 t.day ++ "_" ++
  pad2 t.hour ++ pad2 t.minute ++ pad2 t.second

/-- One download-button payload: bytes, filename, declared media type. -/
structure Payload where
  data : String
  fileName : String
  mime : String
deriving DecidableEq, Repr

/-- Markdown download button (app.py lines 322-327). `now` is the wall clock at
the moment this button is rendered: the code calls `datetime.now()` inside the
`file_name` expression, on every rerun that displays the stored guide. -/
def mdPayload (guide : String) (now : Timestamp) : Payload :=
  { data := guide
    fileName := "study_guide_" ++ fmtTs now ++ ".md"
    mime := "text/markdown" }

/-- Plain-text download button (app.py lines 331-336), with its own separate
`datetime.now()` call. -/
def txtPayload (guide : String) (now : Timestamp) : Payload :=
  { data := guide
    fileName := "study_guide_" ++ fmtTs now ++ ".txt"
    mime := "text/plain" }

/-- Spec-side table of the question-type phrase: for each of the eight flag
combinations, the comma-separated concatenation of the enabled labels in the
fixed order, with the literal fallback when none is enabled. Written from the
spec's words, to be compared with `questionTypeStr` from the code. -/
def phraseTable : Bool → Bool → Bool → String
  | true, true, true => "multiple choice questions, short answer questions, essay questions"
  | true, true, false => "multiple choice questions, short answer questions"
  | true, false, true => "multiple choice questions, essay questions"
  | true, false, false => "multiple choice questions"
  | false, true, true => "short answer questions, essay questions"
  | false, true, false => "short answer questions"
  | false, false, true => "essay questions"
  | false, false, false => "practice questions"

/-- MCQ bullet line of the Comprehensive template (app.py line 227). -/
def mcqBulletC : String := "   - Multiple choice questions (with 4 options and correct answer)"

/-- Short-answer bullet line of the Comprehensive template (app.py line 228). -/
def shortBulletC : String := "   - Short answer questions"

/-- Essay bullet line of the Comprehensive template (app.py line 229). -/
def essayBulletC : String := "   - Essay questions with key points to cover"

/-- MCQ bullet line of the Practice Questions Focus template (app.py line 272). -/
def mcqBulletQ : String := "- Multiple choice questions with 4 options, correct answer, and brief explanation"

/-- Short-answer bullet line of the Practice Questions Focus template (app.py line 273). -/
def shortBulletQ : String := "- Short answer questions with sample answers"

/-- Essay bullet line of the Practice Questions Focus template (app.py line 274). -/
def essayBulletQ : String := "- Essay questions with key points that should be covered"

/-- What a question-type slot contributes as a line of the compiled output:
the bullet when the type is enabled, an empty line when it is disabled. -/
def slotLine (flag : Bool) (bullet : String) : List Char :=
  if flag then bullet.data else []

/-- Representative study material for the concrete prompt laws; contains none
of the template markers or bullet lines. -/
def sampleMaterial : String :=
  "Mitochondria are organelles that produce ATP through cellular respiration."

/-- Representative options around a chosen guide type and question-type flags:
moderate detail, five questions. -/
def sampleOpts (g : String) (a b c : Bool) : OptionSet :=
  ⟨g, .moderate, 5, a, b, c⟩

/-- The three slot lines of the Comprehensive template preceded by its
practice-questions header line, as the lines the compiled output should show
for flags `a b c`. -/
def slotRegionC (a b c : Bool) : List (List Char) :=
  [("5. **PRACTICE QUESTIONS** - Create 5 " ++
      questionTypeStr (sampleOpts "Comprehensive (All sections)" a b c) ++ ":").data,
   slotLine a mcqBulletC, slotLine b shortBulletC, slotLine c essayBulletC]

/-- The three slot lines of the Practice Questions Focus template preceded by
its generate line, as the lines the compiled output should show for flags
`a b c`. -/
def slotRegionQ (a b c : Bool) : List (List Char) :=
  [("Generate " ++ questionTypeStr (sampleOpts "Practice Questions Focus" a b c) ++ ":").data,
   slotLine a mcqBulletQ, slotLine b shortBulletQ, slotLine c essayBulletQ]

/-- A string of `n` one-letter words separated by single spaces. -/
def manyWords (n : Nat) : String := String.intercalate " " (List.replicate n "a")

end StudyGuide

namespace StudyGuide

set_option maxRecDepth 1000000

/-- Helper: any guide type other than the three named ones falls into the
final `else` branch of the chain and compiles the Practice Questions Focus
template. -/
lemma prompt_else (m : String) (o : OptionSet)
    (h1 : o.guideType ≠ "Comprehensive (All sections)")
    (h2 : o.guideType ≠ "Summary Only")
    (h3 : o.guideType ≠ "Definitions Focus") :
    prompt m o = questionsTemplate m o := by
  unfold prompt
  rw [if_neg h1, if_neg h2, if_neg h3]

/-- Helper: on the sample options, an unrecognized guide type compiles the same
string as the literal "Practice Questions Focus" choice: the Practice Questions
Focus template never reads the guide-type field. -/
lemma sampleOpts_else (g : String) (a b c : Bool)
    (h1 : g ≠ "Comprehensive (All sections)")
    (h2 : g ≠ "Summary Only")
    (h3 : g ≠ "Definitions Focus") :
    prompt sampleMaterial (sampleOpts g a b c) =
      questionsTemplate sampleMaterial (sampleOpts "Practice Questions Focus" a b c) := by
  rw [prompt_else sampleMaterial (sampleOpts g a b c) h1 h2 h3]
  rfl

/-- Helper: with a credential present, the preflight reports insufficient input
exactly when the stripped material has fewer than 50 characters. -/
lemma preflight_some_iff (key m : String) :
    preflight (some key) m = some .insufficientInput ↔ (pyStrip m).length < 50 := by
  unfold preflight
  by_cases he : m.isEmpty = true
  · have hm : m = "" := (String.isEmpty_iff _).mp he
    subst hm
    simp
    exact Or.inr (by decide)
  · by_cases hl : (pyStrip m).length < 50 <;> simp [he, hl]

/-- Helper: Python split-and-count agrees with counting maximal runs of
non-whitespace characters, for any partially accumulated token. -/
lemma pySplit_length (l : List Char) :
    ∀ acc, (pySplit acc l).length = (if acc.isEmpty then 0 else 1) + tokenCount (!acc.isEmpty) l := by
  induction l with
  | nil => intro acc; by_cases h : acc.isEmpty <;> simp [pySplit, tokenCount, h]
  | cons c cs ih =>
    intro acc
    by_cases hw : c.isWhitespace <;> by_cases h : acc.isEmpty <;>
      simp [pySplit, tokenCount, hw, h, ih, ih []] <;> omega

/-- Helper: the threshold characterisation of the classification branches. -/
lemma classify_iff (wc : Nat) :
    (classify wc = .tooShort ↔ wc < 100) ∧
    (classify wc = .short ↔ 100 ≤ wc ∧ wc < 200) ∧
    (classify wc = .sufficient ↔ 200 ≤ wc) := by
  unfold classify
  split_ifs with h1 h2
  · exact ⟨iff_of_true rfl h1,
      iff_of_false (by simp) (by omega), iff_of_false (by simp) (by omega)⟩
  · exact ⟨iff_of_false (by simp) (by omega),
      iff_of_true rfl (by omega), iff_of_false (by simp) (by omega)⟩
  · exact ⟨iff_of_false (by simp) (by omega),
      iff_of_false (by simp) (by omega), iff_of_true rfl (by omega)⟩

/-- C1 counterexample: with MCQ and short answer disabled and essay enabled,
both the Comprehensive and the Practice Questions Focus outputs carry an empty
line in each disabled type's slot: the lines right after the practice-questions
header are two empty lines followed by the essay bullet, because the f-string
keeps its newline when a slot interpolates the empty string. This refutes the
claim that the output contains no blank line in a disabled type's place. -/
theorem disabled_slot_blank_cex :
    hasSub (slotRegionC false false true)
      (linesOf (prompt sampleMaterial (sampleOpts "Comprehensive (All sections)" false false true))) = true ∧
    slotRegionC false false true =
      ["5. **PRACTICE QUESTIONS** - Create 5 essay questions:".data, [], [], essayBulletC.data] ∧
    hasSub (slotRegionQ false false true)
      (linesOf (prompt sampleMaterial (sampleOpts "Practice Questions Focus" false false true))) = true ∧
    slotRegionQ false false true =
      ["Generate essay questions:".data, [], [], essayBulletQ.data] :=
  ⟨rfl, rfl, rfl, rfl⟩

/-- C1 (amended): for every combination of the question-type flags, in both the
Comprehensive and the Practice Questions Focus outputs each type's bullet text
appears exactly when the type is enabled, and the three slot lines after the
practice-questions header hold the bullet for enabled types and an empty line —
not nothing — for disabled types. -/
theorem disabled_type_slot_behaviour (a b c : Bool) :
    (hasSub mcqBulletC.data (prompt sampleMaterial (sampleOpts "Comprehensive (All sections)" a b c)).data = a ∧
     hasSub shortBulletC.data (prompt sampleMaterial (sampleOpts "Comprehensive (All sections)" a b c)).data = b ∧
     hasSub essayBulletC.data (prompt sampleMaterial (sampleOpts "Comprehensive (All sections)" a b c)).data = c ∧
     hasSub (slotRegionC a b c)
       (linesOf (prompt sampleMaterial (sampleOpts "Comprehensive (All sections)" a b c))) = true) ∧
    (hasSub mcqBulletQ.data (prompt sampleMaterial (sampleOpts "Practice Questions Focus" a b c)).data = a ∧
     hasSub shortBulletQ.data (prompt sampleMaterial (sampleOpts "Practice Questions Focus" a b c)).data = b ∧
     hasSub essayBulletQ.data (prompt sampleMaterial (sampleOpts "Practice Questions Focus" a b c)).data = c ∧
     hasSub (slotRegionQ a b c)
       (linesOf (prompt sampleMaterial (sampleOpts "Practice Questions Focus" a b c))) = true) := by
  cases a <;> cases b <;> cases c <;> exact ⟨⟨rfl, rfl, rfl, rfl⟩, ⟨rfl, rfl, rfl, rfl⟩⟩

/-- C2: for every combination of the three question-type flags, the phrase is
the comma-separated concatenation of the enabled labels among "multiple choice
questions", "short answer questions", "essay questions" in that fixed order,
and equals the literal "practice questions" when all three are false. -/
theorem questionTypeStr_eq_phraseTable (g : String) (d : DetailLevel) (n : Nat)
    (a b c : Bool) :
    questionTypeStr ⟨g, d, n, a, b, c⟩ = phraseTable a b c := by
  cases a <;> cases b <;> cases c <;> rfl

/-- C3: for every guide-type value (on representative material and options),
exactly one of the four families' distinguishing markers occurs in the compiled
prompt, and it is the selected family's marker: the named guide types select
their own template and everything else selects Practice Questions Focus. -/
theorem prompt_family_exclusive (g : String) :
    familyCount (prompt sampleMaterial (sampleOpts g true true false)) = 1 ∧
    (g = "Comprehensive (All sections)" →
      hasSub markerComprehensive.data (prompt sampleMaterial (sampleOpts g true true false)).data = true) ∧
    (g = "Summary Only" →
      hasSub markerSummary.data (prompt sampleMaterial (sampleOpts g true true false)).data = true) ∧
    (g = "Definitions Focus" →
      hasSub markerDefinitions.data (prompt sampleMaterial (sampleOpts g true true false)).data = true) ∧
    (g ≠ "Comprehensive (All sections)" → g ≠ "Summary Only" → g ≠ "Definitions Focus" →
      hasSub markerQuestions.data (prompt sampleMaterial (sampleOpts g true true false)).data = true) := by
  refine ⟨?_, fun h => ?_, fun h => ?_, fun h => ?_, fun h1 h2 h3 => ?_⟩
  · by_cases h1 : g = "Comprehensive (All sections)"
    · subst h1; decide
    · by_cases h2 : g = "Summary Only"
      · subst h2; decide
      · by_cases h3 : g = "Definitions Focus"
        · subst h3; decide
        · rw [sampleOpts_else g true true false h1 h2 h3]; decide
  · subst h; decide
  · subst h; decide
  · subst h; decide
  · rw [sampleOpts_else g true true false h1 h2 h3]; decide

/-- C3 witness: the exclusivity count at a named guide type, the marker
correspondence at "Definitions Focus", and the catch-all marker at an
unrecognized guide type. -/
theorem prompt_family_exclusive_witness :
    familyCount (prompt sampleMaterial (sampleOpts "Summary Only" true true false)) = 1 ∧
    hasSub markerDefinitions.data
      (prompt sampleMaterial (sampleOpts "Definitions Focus" true true false)).data = true ∧
    hasSub markerQuestions.data
      (prompt sampleMaterial (sampleOpts "Custom Mix" true true false)).data = true :=
  ⟨(prompt_family_exclusive "Summary Only").1,
   (prompt_family_exclusive "Definitions Focus").2.2.2.1 rfl,
   (prompt_family_exclusive "Custom Mix").2.2.2.2 (by decide) (by decide) (by decide)⟩

/-- C4: prompt compilation is deterministic: the compiled string is a function
of the material and the observable option fields alone, so any two invocations
whose material and option fields agree produce byte-identical instruction
strings. -/
theorem prompt_deterministic (m₁ m₂ : String) (o₁ o₂ : OptionSet)
    (hm : m₁ = m₂) (hg : o₁.guideType = o₂.guideType) (hd : o₁.detailLevel = o₂.detailLevel)
    (hn : o₁.numQuestions = o₂.numQuestions) (ha : o₁.includeMCQ = o₂.includeMCQ)
    (hb : o₁.includeShort = o₂.includeShort) (hc : o₁.includeEssay = o₂.includeEssay) :
    prompt m₁ o₁ = prompt m₂ o₂ := by
  cases o₁
  cases o₂
  dsimp only at hg hd hn ha hb hc
  subst hm hg hd hn ha hb hc
  rfl

/-- C4 witness: two invocations on equal concrete inputs agree. -/
theorem prompt_deterministic_witness :
    prompt sampleMaterial ⟨"Summary Only", .brief, 3, true, false, true⟩ =
      prompt sampleMaterial ⟨"Summary Only", .brief, 3, true, false, true⟩ :=
  prompt_deterministic sampleMaterial sampleMaterial _ _ rfl rfl rfl rfl rfl rfl rfl

/-- C5: with a credential set, an attempt is rejected with the
insufficient-input error exactly when the stripped material has fewer than 50
characters (the word-count classification plays no part), and on such inputs
the attempt's outcome does not depend on the prompt compiler at all — the
rejection happens before any prompt is compiled. -/
theorem insufficient_input_gate (key m : String) :
    (preflight (some key) m = some GenError.insufficientInput ↔ (pyStrip m).length < 50) ∧
    (∀ (f g : String → OptionSet → String) (st : AppState) (o : OptionSet)
       (net : String → Except String (List String)),
      st.apiKey = some key → (pyStrip m).length < 50 →
      generateStepWith f st m o net = generateStepWith g st m o net) := by
  refine ⟨preflight_some_iff key m, ?_⟩
  intro f g st o net hkey hlen
  have hp : preflight st.apiKey m = some .insufficientInput := by
    rw [hkey]
    exact (preflight_some_iff key m).mpr hlen
  unfold generateStepWith
  rw [hp]

/-- C5 witness: a 49-character input is rejected as insufficient, a
50-character input is not, and on the 49-character input the attempt is the
same under two different prompt compilers. -/
theorem insufficient_input_gate_witness :
    preflight (some "k") (String.mk (List.replicate 49 'a')) = some GenError.insufficientInput ∧
    preflight (some "k") (String.mk (List.replicate 50 'a')) ≠ some GenError.insufficientInput ∧
    generateStepWith (fun _ _ => "A") ⟨some "k", none⟩ (String.mk (List.replicate 49 'a'))
        ⟨"Summary Only", .brief, 3, false, false, false⟩ (fun _ => .error "x") =
      generateStepWith (fun _ _ => "B") ⟨some "k", none⟩ (String.mk (List.replicate 49 'a'))
        ⟨"Summary Only", .brief, 3, false, false, false⟩ (fun _ => .error "x") :=
  ⟨(insufficient_input_gate "k" _).1.mpr (by decide),
   fun h => absurd ((insufficient_input_gate "k" _).1.mp h) (by decide),
   (insufficient_input_gate "k" _).2 _ _ _ _ _ rfl (by decide)⟩

/-- C6: the word count equals the number of maximal whitespace-delimited
tokens; the classification is TooShort below 100 words, Short from 100 to 199,
Sufficient from 200; and every classification, TooShort included, admits
material that passes the generation gate — the classification blocks nothing. -/
theorem word_count_classification :
    (∀ s : String, wordCount s = tokenCount false s.data) ∧
    (∀ s : String,
      (classify (wordCount s) = Sufficiency.tooShort ↔ wordCount s < 100) ∧
      (classify (wordCount s) = Sufficiency.short ↔ 100 ≤ wordCount s ∧ wordCount s < 200) ∧
      (classify (wordCount s) = Sufficiency.sufficient ↔ 200 ≤ wordCount s)) ∧
    (∀ c : Sufficiency, ∃ s : String,
      classify (wordCount s) = c ∧ preflight (some "key") s = none) := by
  refine ⟨fun s => ?_, fun s => classify_iff (wordCount s), fun c => ?_⟩
  · have h := pySplit_length s.data []
    simpa [wordCount] using h
  · cases c with
    | tooShort => exact ⟨String.mk (List.replicate 60 'a'), by decide, by decide⟩
    | short => exact ⟨manyWords 150, by decide, by decide⟩
    | sufficient => exact ⟨manyWords 250, by decide, by decide⟩

/-- C6 witness: 150 one-letter words are classified Short, via the threshold
characterisation. -/
theorem word_count_classification_witness :
    classify (wordCount (manyWords 150)) = Sufficiency.short :=
  (word_count_classification.2.1 (manyWords 150)).2.1.mpr ⟨by decide, by decide⟩

/-- C7: with no credential set, the attempt fails with the missing-credential
error and the state — the result store included — is returned untouched; the
outcome does not depend on the material, the options, the prompt compiler or
the remote call, so the failure precedes the input check, compilation and any
network activity. -/
theorem missing_credential_precedence (st : AppState) (m : String) (o : OptionSet)
    (f : String → OptionSet → String)
    (net : String → Except String (List String)) (h : st.apiKey = none) :
    generateStepWith f st m o net = (st, some .missingCredential) := by
  unfold generateStepWith preflight
  rw [h]
  rfl

/-- C7 witness: with no credential and material far below the length gate, the
error is still the missing-credential one and the stored guide survives. -/
theorem missing_credential_precedence_witness :
    generateStepWith (fun _ _ => "p") ⟨none, some "old"⟩ "hi"
        ⟨"Summary Only", .brief, 3, false, false, false⟩ (fun _ => .ok ["new"]) =
      (⟨none, some "old"⟩, some .missingCredential) :=
  missing_credential_precedence ⟨none, some "old"⟩ "hi"
    ⟨"Summary Only", .brief, 3, false, false, false⟩ (fun _ _ => "p") (fun _ => .ok ["new"]) rfl

/-- C8: the result store is a single slot overwritten only by success: any
attempt that surfaces an error leaves the stored guide exactly as it was, and
an attempt that surfaces none stores the first completion's text of the remote
response. -/
theorem store_single_slot (st : AppState) (m : String) (o : OptionSet)
    (net : String → Except String (List String)) :
    ((generateStep st m o net).2.isSome = true →
      (generateStep st m o net).1.studyGuide = st.studyGuide) ∧
    ((generateStep st m o net).2 = none →
      ∃ choices text, net (prompt m o) = .ok choices ∧ choices.head? = some text ∧
        (generateStep st m o net).1.studyGuide = some text) := by
  unfold generateStep generateStepWith
  cases hp : preflight st.apiKey m with
  | some e => simp
  | none =>
    dsimp only
    cases hn : net (prompt m o) with
    | error e => simp
    | ok choices =>
      dsimp only
      cases hc : choices.head? with
      | none => simp [hc]
      | some text =>
        dsimp only
        exact ⟨fun h => by simp at h, fun _ => ⟨choices, text, rfl, hc, rfl⟩⟩

/-- C8 witness: after a prior success stored "old", a failing remote call
leaves "old" in place, and a succeeding one replaces it with the first
completion's text. -/
theorem store_single_slot_witness :
    (generateStep ⟨some "k", some "old"⟩ sampleMaterial
        ⟨"Summary Only", .brief, 3, false, false, false⟩
        (fun _ => .error "boom")).1.studyGuide = some "old" ∧
    (generateStep ⟨some "k", some "old"⟩ sampleMaterial
        ⟨"Summary Only", .brief, 3, false, false, false⟩
        (fun _ => .ok ["fresh"])).1.studyGuide = some "fresh" := by
  constructor
  · exact (store_single_slot ⟨some "k", some "old"⟩ sampleMaterial
      ⟨"Summary Only", .brief, 3, false, false, false⟩ (fun _ => .error "boom")).1 (by decide)
  · obtain ⟨ch, t, h1, h2, h3⟩ := (store_single_slot ⟨some "k", some "old"⟩ sampleMaterial
      ⟨"Summary Only", .brief, 3, false, false, false⟩ (fun _ => .ok ["fresh"])).2 rfl
    have hch : ["fresh"] = ch := Except.ok.inj h1
    subst hch
    have ht : "fresh" = t := Option.some.inj h2
    subst ht
    exact h3

/-- C9 counterexample: the download buttons stamp filenames with
`datetime.now()` read when each button is rendered; no generation time is
stored anywhere. With the generation at 03:04:05 and the buttons rendered at
03:04:06, the markdown filename is not stamped with the generation time, and
when the two buttons' clock reads straddle a second the two filenames differ
in more than the suffix — refuting both the generation-time stamping and the
"differ only in media type and suffix" parts of the claim. The payload bytes
are nevertheless identical. -/
theorem export_stamp_cex :
    (mdPayload "guide" ⟨2026, 1, 2, 3, 4, 6⟩).fileName ≠
      "study_guide_" ++ fmtTs ⟨2026, 1, 2, 3, 4, 5⟩ ++ ".md" ∧
    (mdPayload "guide" ⟨2026, 1, 2, 3, 4, 5⟩).fileName.data.take 27 ≠
      (txtPayload "guide" ⟨2026, 1, 2, 3, 4, 6⟩).fileName.data.take 27 ∧
    (mdPayload "guide" ⟨2026, 1, 2, 3, 4, 5⟩).data =
      (txtPayload "guide" ⟨2026, 1, 2, 3, 4, 6⟩).data :=
  ⟨by decide, by decide, rfl⟩

/-- C9 (amended): for every stored guide and every pair of render-time clock
reads, the two payloads' bytes are identical, their media types are
text/markdown and text/plain, and each filename is `study_guide_` followed by
that button's own render-time clock read formatted YYYYMMDD_HHMMSS and the
`.md` or `.txt` suffix — the stamp is the render-time wall clock, not the
generation time, and the two stamps may differ. -/
theorem export_payloads (guide : String) (t1 t2 : Timestamp) :
    (mdPayload guide t1).data = (txtPayload guide t2).data ∧
    (mdPayload guide t1).mime = "text/markdown" ∧
    (txtPayload guide t2).mime = "text/plain" ∧
    (mdPayload guide t1).fileName = "study_guide_" ++ fmtTs t1 ++ ".md" ∧
    (txtPayload guide t2).fileName = "study_guide_" ++ fmtTs t2 ++ ".txt" :=
  ⟨rfl, rfl, rfl, rfl, rfl⟩

/-- C10: the guide-type selection is total: any guide type other than the
three named ones reaches the final `else` branch and compiles the Practice
Questions Focus template, so compilation never fails on an unrecognized guide
type. -/
theorem prompt_catch_all (m : String) (o : OptionSet)
    (h1 : o.guideType ≠ "Comprehensive (All sections)")
    (h2 : o.guideType ≠ "Summary Only")
    (h3 : o.guideType ≠ "Definitions Focus") :
    prompt m o = questionsTemplate m o :=
  prompt_else m o h1 h2 h3

/-- C10 witness: an unrecognized guide type compiles the Practice Questions
Focus template. -/
theorem prompt_catch_all_witness :
    prompt sampleMaterial ⟨"Custom Blend", .brief, 4, true, false, false⟩ =
      questionsTemplate sampleMaterial ⟨"Custom Blend", .brief, 4, true, false, false⟩ :=
  prompt_catch_all sampleMaterial ⟨"Custom Blend", .brief, 4, true, false, false⟩
    (by decide) (by decide) (by decide)

end StudyGuide
